import Mathlib

/-!
Verification of `copilot-session-logger` (`src/index.ts`), a local MCP-style
server exposing one tool, `save-copilot-session`.

The embedding below translates the functions of `src/index.ts` into Lean:

* Calendar values obtained from a JavaScript `Date` (`getDate`, `getMonth`,
  `getFullYear`, `getHours`, `getMinutes`, `getSeconds`, `getMilliseconds`)
  are modelled by the structure `JsDate` holding those components directly;
  `getMonth` is 0-based, hence the field name `month0`.
* JavaScript decimal rendering of a number (`String(n)`) is modelled by
  `natToString`, and `padStart` by `padStart`.
* `node:path`'s `path.join` is modelled by `pathJoin` (separator
  concatenation, adequate for already-normalized segments), and
  `path.basename` by `basename`.
* The filesystem is modelled by the state `FS`: an association list of file
  contents plus the list of directories created; `fs.writeFile`, `fs.mkdir`
  (via `ensureDir`) and the existence check become pure state transformers.
* JavaScript string truthiness of an optional string argument is `jsTruthy`;
  `new Date(s)` parsing is an oracle `Env.parseDate` returning `none` for an
  invalid date (`NaN` time value), and `new Date()` is `Env.now`.
* `out.split(key).join(value)` is `replaceAll` (`splitOnStr` then
  `intercalate`), faithful for the non-empty keys used by the program;
  `splitOnStr`, `trimStr` and `startsWithStr` are structurally recursive
  models of string splitting, `String.prototype.trim` (ASCII whitespace)
  and prefix testing, kept kernel-computable so concrete runs evaluate.
-/

/-- Splitting fuel loop: cut `l` at every occurrence of the non-empty
separator `sep`, scanning left to right; the fuel bounds the number of
scanning steps and keeps the recursion structural. -/
def splitOnListAux (sep : List Char) : Nat → List Char → List (List Char)
  | 0, l => [l]
  | _, [] => [[]]
  | fuel + 1, c :: rest =>
    if sep.isPrefixOf (c :: rest) then
      [] :: splitOnListAux sep fuel (List.drop (sep.length - 1) rest)
    else
      match splitOnListAux sep fuel rest with
      | [] => [[c]]
      | h :: t => (c :: h) :: t

/-- Split a character list on every occurrence of `sep`; an empty
separator returns the list whole. -/
def splitOnList (sep l : List Char) : List (List Char) :=
  if sep = [] then [l] else splitOnListAux sep (l.length + 1) l

/-- Model of JavaScript `s.split(sep)` for a non-empty string separator. -/
def splitOnStr (s sep : String) : List String :=
  (splitOnList sep.data s.data).map String.mk

/-- ASCII whitespace, the relevant cases of the characters JavaScript
`String.prototype.trim` removes. -/
def isWhitespaceChar (c : Char) : Bool :=
  c == ' ' || c == '\t' || c == '\n' || c == '\r'

/-- Model of JavaScript `s.trim()`: drop leading and trailing whitespace. -/
def trimStr (s : String) : String :=
  String.mk (((s.data.dropWhile isWhitespaceChar).reverse.dropWhile isWhitespaceChar).reverse)

/-- Prefix test on the underlying character lists. -/
def startsWithStr (s pre : String) : Bool := pre.data.isPrefixOf s.data

/-- Components of a JavaScript `Date` as read by the formatters in
`src/index.ts`. `month0` is the 0-based month of `getMonth()`. -/
structure JsDate where
  year : Nat
  month0 : Nat
  day : Nat
  hours : Nat
  minutes : Nat
  seconds : Nat
  ms : Nat
deriving DecidableEq, Repr

/-- Ranges of the components of a real calendar timestamp with a 4-digit
year, as produced by a JavaScript `Date` for dates between year 1000 and
year 9999. -/
def ValidDate (d : JsDate) : Prop :=
  1 ≤ d.day ∧ d.day ≤ 31 ∧ d.month0 ≤ 11 ∧ d.hours ≤ 23 ∧ d.minutes ≤ 59 ∧
    d.seconds ≤ 59 ∧ d.ms ≤ 999 ∧ 1000 ≤ d.year ∧ d.year ≤ 9999

instance (d : JsDate) : Decidable (ValidDate d) := by
  unfold ValidDate; infer_instance

/-- Fuel-driven accumulator loop producing the decimal digit characters of
`n` in front of `acc`; mirrors how a JavaScript number is rendered in
base 10. Structural recursion on the fuel keeps it kernel-computable. -/
def natToDigitsCore (fuel n : Nat) (acc : List Char) : List Char :=
  match fuel with
  | 0 => acc
  | f + 1 =>
    let c := Char.ofNat (48 + n % 10)
    if n < 10 then c :: acc else natToDigitsCore f (n / 10) (c :: acc)

/-- Decimal rendering of a natural number, modelling JavaScript `String(n)`
for the non-negative integers the program formats. -/
def natToString (n : Nat) : String :=
  String.mk (natToDigitsCore (n + 1) n [])

/-- Model of JavaScript `String.prototype.padStart(len, c)`: left-pad to
`len` characters (never truncates). -/
def padStart (s : String) (len : Nat) (c : Char) : String :=
  String.mk (List.replicate (len - s.length) c) ++ s

/-- `pad2` from `src/index.ts`: `String(n).padStart(2, "0")`. -/
def pad2 (n : Nat) : String := padStart (natToString n) 2 '0'

/-- `pad3` from `src/index.ts`: `String(n).padStart(3, "0")`. -/
def pad3 (n : Nat) : String := padStart (natToString n) 3 '0'

/-- `formatDateFolder` from `src/index.ts`:
day, 1-based month and full year joined by dashes. -/
def formatDateFolder (d : JsDate) : String :=
  pad2 d.day ++ "-" ++ pad2 (d.month0 + 1) ++ "-" ++ natToString d.year

/-- `formatTimeDash` from `src/index.ts`. -/
def formatTimeDash (d : JsDate) : String :=
  pad2 d.hours ++ "-" ++ pad2 d.minutes ++ "-" ++ pad2 d.seconds

/-- `formatTimeDashMs` from `src/index.ts`. -/
def formatTimeDashMs (d : JsDate) : String :=
  formatTimeDash d ++ "-" ++ pad3 d.ms

/-- `formatTimeColon` from `src/index.ts`. -/
def formatTimeColon (d : JsDate) : String :=
  pad2 d.hours ++ ":" ++ pad2 d.minutes ++ ":" ++ pad2 d.seconds

/-- Model of `path.join(a, b)` for already-normalized segments. -/
def pathJoin (a b : String) : String := a ++ "/" ++ b

/-- Model of `path.basename` for simple slash-separated paths. -/
def basename (p : String) : String := (splitOnStr p "/").getLastD ""

/-- Filesystem state: files written (newest binding first) and directories
created. -/
structure FS where
  files : List (String × String)
  dirs : List String
deriving DecidableEq, Repr

/-- Model of `fs.writeFile(p, contents)`. -/
def writeFile (p contents : String) (fs : FS) : FS :=
  { fs with files := (p, contents) :: fs.files }

/-- Model of `ensureDir(p)` (`fs.mkdir(p, { recursive: true })`). -/
def ensureDir (p : String) (fs : FS) : FS :=
  { fs with dirs := p :: fs.dirs }

/-- Model of `fileExists(p)` (`fs.access` succeeding). -/
def fileExists (p : String) (fs : FS) : Bool :=
  (fs.files.lookup p).isSome

/-- The default template text written by `loadOrCreateTemplate` on first
use. -/
def defaultTemplate : String :=
  "# Copilot chat session {{DATE}} {{TIME_COLON}}\n\n" ++
    "## Conversation\n\n" ++
    "{{TRANSCRIPT}}\n"

/-- `loadOrCreateTemplate` from `src/index.ts`: return the contents of
`<logRoot>/_TEMPLATE.md` if that file exists, otherwise write the default
template there and return it. -/
def loadOrCreateTemplate (logRoot : String) (fs : FS) : String × FS :=
  let templatePath := pathJoin logRoot "_TEMPLATE.md"
  match fs.files.lookup templatePath with
  | some contents => (contents, fs)
  | none => (defaultTemplate, writeFile templatePath defaultTemplate fs)

/-- One substitution step `out.split(key).join(value)`, replacing every
occurrence of `key` in `out` by `value` (for the non-empty keys used by the
program). -/
def replaceAll (s key value : String) : String :=
  String.intercalate value (splitOnStr s key)

/-- `applyTemplate` from `src/index.ts`: left-to-right fold of
`replaceAll` over the replacement entries, in the order the object literal
lists them. -/
def applyTemplate (template : String) (replacements : List (String × String)) : String :=
  replacements.foldl (fun out kv => replaceAll out kv.1 kv.2) template

/-- The `SaveCopilotSessionArgs` input type of `src/index.ts`. -/
structure SaveCopilotSessionArgs where
  transcriptMarkdown : Option String
  savedAt : Option String
  workspaceRoot : Option String
deriving DecidableEq, Repr

/-- Host environment of one invocation: the current local time, the current
working directory, `process.platform`, and the `new Date(string)` parsing
oracle (`none` models an invalid date whose time value is `NaN`). -/
structure Env where
  now : JsDate
  cwd : String
  platform : String
  parseDate : String → Option JsDate

/-- JavaScript truthiness of an optional string: `undefined` and the empty
string are falsy. -/
def jsTruthy : Option String → Bool
  | none => false
  | some s => !(s == "")

/-- The `savedAt` resolution of `saveCopilotSession`:
`args.savedAt ? new Date(args.savedAt) : new Date()`, with `none` standing
for a `NaN` time value rejected by the subsequent check. -/
def savedAtResult (env : Env) (args : SaveCopilotSessionArgs) : Option JsDate :=
  if jsTruthy args.savedAt then env.parseDate (args.savedAt.getD "") else some env.now

/-- The error message for an unparseable `savedAt`. -/
def invalidSavedAtMsg : String :=
  "Invalid \x27savedAt\x27 value. Expected an ISO-8601 datetime string."

/-- The error message for a missing or empty transcript. -/
def noTranscriptMsg : String :=
  "No transcript provided. This tool expects Copilot to pass the full " ++
    "conversation Markdown as \x27transcriptMarkdown\x27 when invoking " ++
    "save-copilot-session."

/-- The result union of `saveCopilotSession`: `{ savedPath }` or
`{ error }`. -/
inductive SaveResult where
  | success (savedPath : String)
  | failure (message : String)
deriving DecidableEq, Repr

/-- The replacement object literal passed to `applyTemplate` by
`saveCopilotSession`, in its source order. -/
def saveReplacements (workspaceRoot platform : String) (savedAt : JsDate)
    (transcript : String) : List (String × String) :=
  [("{{DATE}}", formatDateFolder savedAt),
   ("{{TIME_COLON}}", formatTimeColon savedAt),
   ("{{TIME_DASH}}", formatTimeDash savedAt),
   ("{{TIME_DASH_MS}}", formatTimeDashMs savedAt),
   ("{{WORKSPACE_ROOT}}", workspaceRoot),
   ("{{PROJECT_NAME}}", basename workspaceRoot),
   ("{{OS}}", platform),
   ("{{MODEL}}", "GPT-5.2"),
   ("{{TRANSCRIPT}}", transcript)]

/-- `saveCopilotSession` from `src/index.ts`, as a state transformer over
the modelled filesystem, preserving the source's statement order: parse
`savedAt`, resolve the workspace root, create the date directory, load or
create the template, then validate the transcript, render and write. -/
def saveCopilotSession (env : Env) (args : SaveCopilotSessionArgs) (fs : FS) :
    SaveResult × FS :=
  match savedAtResult env args with
  | none => (SaveResult.failure invalidSavedAtMsg, fs)
  | some savedAt =>
    let workspaceRoot := args.workspaceRoot.getD env.cwd
    let logRoot := pathJoin workspaceRoot "copilot-session_log"
    let dateFolder := formatDateFolder savedAt
    let timeDashMs := formatTimeDashMs savedAt
    let outDir := pathJoin logRoot dateFolder
    let fs1 := ensureDir outDir fs
    let baseName := "session_" ++ timeDashMs ++ ".md"
    let outPath := pathJoin outDir baseName
    let tfs := loadOrCreateTemplate logRoot fs1
    let transcript := trimStr (args.transcriptMarkdown.getD "")
    if transcript = "" then
      (SaveResult.failure noTranscriptMsg, tfs.2)
    else
      let rendered := applyTemplate tfs.1
        (saveReplacements workspaceRoot env.platform savedAt transcript)
      (SaveResult.success outPath, writeFile outPath rendered tfs.2)

/-- The output path computed by `saveCopilotSession` for a given workspace
root and save timestamp. -/
def sessionOutPath (workspaceRoot : String) (d : JsDate) : String :=
  pathJoin (pathJoin (pathJoin workspaceRoot "copilot-session_log") (formatDateFolder d))
    ("session_" ++ formatTimeDashMs d ++ ".md")

/-- `parseCliArgs` from `src/index.ts`: find the first `--workspaceRoot`
flag in `argv.slice(2)` and take the next argument if it is present and
truthy (non-empty). -/
def parseCliArgs (argv : List String) : Option String :=
  let args := argv.drop 2
  match args.findIdx? (fun a => a == "--workspaceRoot") with
  | some idx =>
    match args[idx + 1]? with
    | some v => if v == "" then none else some v
    | none => none
  | none => none

/-- The workspace-root resolution of the invoke handler in `main`:
`input.workspaceRoot ?? cli.workspaceRoot ?? process.cwd()`. -/
def resolveWorkspaceRoot (perCall startupOverride : Option String) (cwd : String) : String :=
  perCall.getD (startupOverride.getD cwd)

/-- A string consists of decimal digit characters only. -/
def isDigits (s : String) : Bool := s.data.all (·.isDigit)

/-- `sub` occurs somewhere in `s` (splitting on an occurring separator
yields at least two pieces). -/
def mentionsStr (s sub : String) : Bool := decide (2 ≤ (splitOnStr s sub).length)

/-- Some line of `s` is a Markdown heading containing `tok`. -/
def hasHeadingWith (s tok : String) : Bool :=
  (splitOnStr s "\n").any (fun l => startsWithStr l "#" && mentionsStr l tok)

/-- The local timestamp 2024-03-05T09:07:02.004 used as a concrete test
point (month0 = 2 is March). -/
def marchDate : JsDate := ⟨2024, 2, 5, 9, 7, 2, 4⟩

/-- The digit loop agrees with the base-10 digit expansion: for positive
`n` within the fuel bound it produces the big-endian digit characters of
`n` in front of the accumulator. -/
theorem natToDigitsCore_eq_digits : ∀ (fuel n : Nat) (acc : List Char), 0 < n → n < 10 ^ fuel →
    natToDigitsCore fuel n acc =
      ((Nat.digits 10 n).map (fun d => Char.ofNat (48 + d))).reverse ++ acc := by
  intro fuel
  induction fuel with
  | zero => intro n acc h1 h2; omega
  | succ f ih =>
    intro n acc h1 h2
    rw [natToDigitsCore]
    by_cases h10 : n < 10
    · simp only [if_pos h10]
      rw [Nat.digits_def' (by norm_num : 1 < 10) h1]
      have hd : n / 10 = 0 := Nat.div_eq_of_lt h10
      have hm : n % 10 = n := Nat.mod_eq_of_lt h10
      rw [hd, hm]
      simp
    · simp only [if_neg h10]
      have hpos : 0 < n / 10 := Nat.div_pos (by omega) (by norm_num)
      have hlt : n / 10 < 10 ^ f := by
        rw [Nat.div_lt_iff_lt_mul (by norm_num : 0 < 10)]
        calc n < 10 ^ (f + 1) := h2
        _ = 10 ^ f * 10 := by rw [pow_succ]
      rw [ih (n / 10) _ hpos hlt]
      rw [Nat.digits_def' (by norm_num : 1 < 10) h1]
      simp [List.append_assoc]

/-- Every natural number is below `10 ^ (n + 1)`. -/
theorem lt_ten_pow_succ (n : Nat) : n < 10 ^ (n + 1) := by
  calc n < 10 ^ n * 1 := by have := Nat.lt_pow_self (by norm_num : 1 < 10) n; omega
  _ ≤ 10 ^ (n + 1) := by rw [pow_succ]; exact Nat.mul_le_mul_left _ (by norm_num)

/-- Length of the decimal rendering of a positive number. -/
theorem natToString_length (n : Nat) (h : 0 < n) :
    (natToString n).length = Nat.log 10 n + 1 := by
  rw [natToString, natToDigitsCore_eq_digits (n + 1) n [] h (lt_ten_pow_succ n)]
  rw [String.length_mk]
  simp [Nat.digits_len 10 n (by norm_num) (by omega)]

/-- The decimal rendering of a number up to `10 ^ k` has at most `k`
characters (for positive `k`). -/
theorem natToString_length_le (n k : Nat) (hk : 0 < k) (h : n < 10 ^ k) :
    (natToString n).length ≤ k := by
  rcases Nat.eq_zero_or_pos n with h0 | h0
  · subst h0; simpa [natToString, natToDigitsCore] using hk
  · rw [natToString_length n h0]
    have := Nat.log_lt_of_lt_pow (by omega : n ≠ 0) h
    omega

/-- A 4-digit year renders as exactly four characters. -/
theorem natToString_year_length (y : Nat) (h1 : 1000 ≤ y) (h2 : y ≤ 9999) :
    (natToString y).length = 4 := by
  rw [natToString_length y (by omega)]
  have e3 : (10 : Nat) ^ 3 = 1000 := by norm_num
  have e4 : (10 : Nat) ^ (3 + 1) = 10000 := by norm_num
  rw [@Nat.log_eq_of_pow_le_of_lt_pow 10 3 y (by omega) (by omega)]

/-- The decimal rendering consists of digit characters only. -/
theorem natToString_isDigits (n : Nat) : isDigits (natToString n) = true := by
  rcases Nat.eq_zero_or_pos n with h | h
  · subst h; rfl
  · rw [natToString, natToDigitsCore_eq_digits (n + 1) n [] h (lt_ten_pow_succ n)]
    rw [isDigits]
    simp only [List.append_nil, List.all_eq_true, List.mem_reverse, List.mem_map]
    rintro c ⟨d, hd, rfl⟩
    have hlt : d < 10 := Nat.digits_lt_base (by norm_num) hd
    interval_cases d <;> decide

/-- Padding a short-enough string yields exactly the target length. -/
theorem padStart_length (s : String) (k : Nat) (c : Char) (h : s.length ≤ k) :
    (padStart s k c).length = k := by
  rw [padStart, String.length_append, String.length_mk, List.length_replicate]
  omega

/-- Padding a digit string with the zero character keeps it digit-only. -/
theorem padStart_isDigits (s : String) (k : Nat) (h : isDigits s = true) :
    isDigits (padStart s k '0') = true := by
  rw [padStart, isDigits, String.data_append]
  rw [isDigits] at h
  simp only [List.all_append, h, Bool.and_true]
  simp only [List.all_eq_true, List.mem_replicate]
  rintro c ⟨-, rfl⟩
  decide

/-- `pad2` of a number below 100 is a two-character digit string. -/
theorem pad2_shape (n : Nat) (h : n < 100) :
    (pad2 n).length = 2 ∧ isDigits (pad2 n) = true := by
  constructor
  · exact padStart_length _ _ _ (natToString_length_le n 2 (by norm_num) (by norm_num; omega))
  · exact padStart_isDigits _ _ (natToString_isDigits n)

/-- `pad3` of a number below 1000 is a three-character digit string. -/
theorem pad3_shape (n : Nat) (h : n < 1000) :
    (pad3 n).length = 3 ∧ isDigits (pad3 n) = true := by
  constructor
  · exact padStart_length _ _ _ (natToString_length_le n 3 (by norm_num) (by norm_num; omega))
  · exact padStart_isDigits _ _ (natToString_isDigits n)

/-- C6: for every invocation, the effective workspace root is resolved with
strict precedence: the explicit per-call `workspaceRoot` argument if
supplied, otherwise the startup-time `--workspaceRoot` override if set,
otherwise the current working directory. -/
theorem workspaceRoot_precedence :
    (∀ (w : String) (cli : Option String) (cwd : String),
      resolveWorkspaceRoot (some w) cli cwd = w) ∧
    (∀ (c cwd : String), resolveWorkspaceRoot none (some c) cwd = c) ∧
    (∀ cwd : String, resolveWorkspaceRoot none none cwd = cwd) :=
  ⟨fun _ _ _ => rfl, fun _ _ => rfl, fun _ => rfl⟩

/-- C7: template loading returns the contents of `<logRoot>/_TEMPLATE.md`
verbatim when that file exists; otherwise it writes a default template
containing a date heading, a time heading and a TRANSCRIPT placeholder to
that path and returns that default text. -/
theorem loadOrCreateTemplate_spec (logRoot : String) (fs : FS) :
    (∀ c, fs.files.lookup (pathJoin logRoot "_TEMPLATE.md") = some c →
      loadOrCreateTemplate logRoot fs = (c, fs)) ∧
    (fs.files.lookup (pathJoin logRoot "_TEMPLATE.md") = none →
      loadOrCreateTemplate logRoot fs =
        (defaultTemplate, writeFile (pathJoin logRoot "_TEMPLATE.md") defaultTemplate fs)) ∧
    mentionsStr defaultTemplate "{{TRANSCRIPT}}" = true ∧
    hasHeadingWith defaultTemplate "{{DATE}}" = true ∧
    hasHeadingWith defaultTemplate "{{TIME_COLON}}" = true := by
  refine ⟨?_, ?_, by decide, by decide, by decide⟩
  · intro c h
    simp only [loadOrCreateTemplate, h]
  · intro h
    simp only [loadOrCreateTemplate, h]

/-- Witness for C7 at concrete inputs: an existing template is returned
verbatim, and a missing one is created with the default text. -/
theorem loadOrCreateTemplate_spec_witness :
    loadOrCreateTemplate "/r" ⟨[("/r/_TEMPLATE.md", "my template")], []⟩ =
      ("my template", ⟨[("/r/_TEMPLATE.md", "my template")], []⟩) ∧
    loadOrCreateTemplate "/r" ⟨[], []⟩ =
      (defaultTemplate, writeFile (pathJoin "/r" "_TEMPLATE.md") defaultTemplate ⟨[], []⟩) :=
  ⟨(loadOrCreateTemplate_spec "/r" ⟨[("/r/_TEMPLATE.md", "my template")], []⟩).1
      "my template" (by decide),
   (loadOrCreateTemplate_spec "/r" ⟨[], []⟩).2.1 (by decide)⟩

/-- C2 as stated is false: `applyTemplate` substitutes sequentially, so a
replacement value is re-scanned by later substitutions and the order of the
map changes the output. With the nine fixed tokens, a DATE value that
contains the literal text of the TRANSCRIPT token is rewritten by the later
TRANSCRIPT substitution, while permuting the map preserves it. -/
theorem applyTemplate_singlePass_counterexample :
    applyTemplate "{{DATE}}"
        [("{{DATE}}", "{{TRANSCRIPT}}"), ("{{TIME_COLON}}", "a"),
         ("{{TIME_DASH}}", "b"), ("{{TIME_DASH_MS}}", "c"),
         ("{{WORKSPACE_ROOT}}", "d"), ("{{PROJECT_NAME}}", "e"),
         ("{{OS}}", "f"), ("{{MODEL}}", "g"), ("{{TRANSCRIPT}}", "X")] = "X" ∧
    applyTemplate "{{DATE}}"
        [("{{TRANSCRIPT}}", "X"), ("{{DATE}}", "{{TRANSCRIPT}}"),
         ("{{TIME_COLON}}", "a"), ("{{TIME_DASH}}", "b"),
         ("{{TIME_DASH_MS}}", "c"), ("{{WORKSPACE_ROOT}}", "d"),
         ("{{PROJECT_NAME}}", "e"), ("{{OS}}", "f"),
         ("{{MODEL}}", "g")] = "{{TRANSCRIPT}}" ∧
    applyTemplate "{{DATE}}"
        [("{{DATE}}", "{{TRANSCRIPT}}"), ("{{TIME_COLON}}", "a"),
         ("{{TIME_DASH}}", "b"), ("{{TIME_DASH_MS}}", "c"),
         ("{{WORKSPACE_ROOT}}", "d"), ("{{PROJECT_NAME}}", "e"),
         ("{{OS}}", "f"), ("{{MODEL}}", "g"), ("{{TRANSCRIPT}}", "X")] ≠
      "{{TRANSCRIPT}}" := by
  refine ⟨by decide, by decide, by decide⟩

/-- C2 amended: `render` substitutes the entries of the replacement map one
after another, each step acting on the output of the previous one; a
replacement value inserted earlier is therefore re-scanned by the
substitutions that follow it, and the order of the map can change the
output when a replacement value contains token-looking text. -/
theorem applyTemplate_sequential :
    (∀ (t : String) (m1 m2 : List (String × String)),
      applyTemplate t (m1 ++ m2) = applyTemplate (applyTemplate t m1) m2) ∧
    (∀ (t k v : String), applyTemplate t [(k, v)] = replaceAll t k v) ∧
    applyTemplate "{{DATE}}"
        [("{{DATE}}", "{{TRANSCRIPT}}"), ("{{TRANSCRIPT}}", "X")] = "X" ∧
    applyTemplate "{{DATE}}"
        [("{{TRANSCRIPT}}", "X"), ("{{DATE}}", "{{TRANSCRIPT}}")] = "{{TRANSCRIPT}}" := by
  refine ⟨?_, fun _ _ _ => rfl, by decide, by decide⟩
  intro t m1 m2
  exact List.foldl_append _ _ _ _

/-- C8: the handler substitutes the nine tokens in a fixed source order
with the TRANSCRIPT token last; a token string occurring literally inside
the transcript value therefore survives to the output untouched, whereas a
token string inside an earlier-substituted value (here a workspace root
containing the MODEL token) is replaced by a later substitution. -/
theorem saveReplacements_order :
    (∀ (ws pf : String) (d : JsDate) (tr : String),
      (saveReplacements ws pf d tr).map Prod.fst =
        ["{{DATE}}", "{{TIME_COLON}}", "{{TIME_DASH}}", "{{TIME_DASH_MS}}",
         "{{WORKSPACE_ROOT}}", "{{PROJECT_NAME}}", "{{OS}}", "{{MODEL}}",
         "{{TRANSCRIPT}}"] ∧
      (saveReplacements ws pf d tr).getLast? = some ("{{TRANSCRIPT}}", tr)) ∧
    (List.all
      ["{{DATE}}", "{{TIME_COLON}}", "{{TIME_DASH}}", "{{TIME_DASH_MS}}",
       "{{WORKSPACE_ROOT}}", "{{PROJECT_NAME}}", "{{OS}}", "{{MODEL}}",
       "{{TRANSCRIPT}}"]
      (fun tok =>
        applyTemplate "{{TRANSCRIPT}}" (saveReplacements "/ws" "linux" marchDate tok)
          == tok)) = true ∧
    applyTemplate "{{WORKSPACE_ROOT}}"
        (saveReplacements "{{MODEL}}" "linux" marchDate "hello") = "GPT-5.2" ∧
    applyTemplate defaultTemplate
        (saveReplacements "/ws" "linux" marchDate "literal {{DATE}} stays") =
      "# Copilot chat session 05-03-2024 09:07:02\n\n" ++
        "## Conversation\n\nliteral {{DATE}} stays\n" := by
  refine ⟨fun ws pf d tr => ⟨rfl, rfl⟩, by decide, by decide, by decide⟩

/-- Unfolding of the save handler on an invocation whose `savedAt` gate
passes but whose transcript trims to empty: the failure result is returned
with the filesystem state left by directory creation and template
load/creation. -/
theorem save_emptyTranscript_eq (env : Env) (args : SaveCopilotSessionArgs) (fs : FS)
    (d : JsDate) (h : savedAtResult env args = some d)
    (ht : trimStr (args.transcriptMarkdown.getD "") = "") :
    saveCopilotSession env args fs =
      (SaveResult.failure noTranscriptMsg,
        (loadOrCreateTemplate (pathJoin (args.workspaceRoot.getD env.cwd) "copilot-session_log")
          (ensureDir
            (pathJoin (pathJoin (args.workspaceRoot.getD env.cwd) "copilot-session_log")
              (formatDateFolder d)) fs)).2) := by
  simp [saveCopilotSession, h, ht]

/-- C4: an invocation whose supplied `savedAt` is unparseable is rejected
with a failure whose message mentions the expected ISO-8601 format, and the
filesystem is left exactly as it was: no directory or file is created. -/
theorem invalidSavedAt_rejected (env : Env) (args : SaveCopilotSessionArgs) (fs : FS)
    (h1 : jsTruthy args.savedAt = true)
    (h2 : env.parseDate (args.savedAt.getD "") = none) :
    saveCopilotSession env args fs = (SaveResult.failure invalidSavedAtMsg, fs) ∧
    mentionsStr invalidSavedAtMsg "ISO-8601" = true := by
  have h : savedAtResult env args = none := by simp [savedAtResult, h1, h2]
  exact ⟨by simp [saveCopilotSession, h], by decide⟩

/-- Witness for C4: the call with savedAt equal to the string not-a-date
(whose parse fails) is rejected on an empty filesystem without touching
it. -/
theorem invalidSavedAt_rejected_witness :
    saveCopilotSession ⟨marchDate, "/ws", "linux", fun _ => none⟩
        ⟨some "hello", some "not-a-date", none⟩ ⟨[], []⟩ =
      (SaveResult.failure invalidSavedAtMsg, ⟨[], []⟩) ∧
    mentionsStr invalidSavedAtMsg "ISO-8601" = true :=
  invalidSavedAt_rejected ⟨marchDate, "/ws", "linux", fun _ => none⟩
    ⟨some "hello", some "not-a-date", none⟩ ⟨[], []⟩ (by decide) rfl

/-- C5: an invocation whose transcript is absent, empty, or
whitespace-only never succeeds and never writes a session file; when the
`savedAt` gate passes, the failure is the message telling the caller to
supply the full transcript text. At most the default template file can
have been added to the filesystem. -/
theorem missingTranscript_fails (env : Env) (args : SaveCopilotSessionArgs) (fs : FS)
    (ht : trimStr (args.transcriptMarkdown.getD "") = "") :
    (∀ p, (saveCopilotSession env args fs).1 ≠ SaveResult.success p) ∧
    (∀ d, savedAtResult env args = some d →
      (saveCopilotSession env args fs).1 = SaveResult.failure noTranscriptMsg) ∧
    ((saveCopilotSession env args fs).2.files = fs.files ∨
      (saveCopilotSession env args fs).2.files =
        (pathJoin (pathJoin (args.workspaceRoot.getD env.cwd) "copilot-session_log")
            "_TEMPLATE.md", defaultTemplate) :: fs.files) := by
  cases h : savedAtResult env args with
  | none =>
    refine ⟨?_, ?_, ?_⟩
    · intro p
      simp [saveCopilotSession, h]
    · intro d hd
      exact absurd hd (by simp)
    · left
      simp [saveCopilotSession, h]
  | some d =>
    rw [save_emptyTranscript_eq env args fs d h ht]
    refine ⟨fun p => by simp, fun e he => rfl, ?_⟩
    rw [loadOrCreateTemplate]
    cases hl : (ensureDir
        (pathJoin (pathJoin (args.workspaceRoot.getD env.cwd) "copilot-session_log")
          (formatDateFolder d)) fs).files.lookup
        (pathJoin (pathJoin (args.workspaceRoot.getD env.cwd) "copilot-session_log")
          "_TEMPLATE.md") with
    | none => right; simp [writeFile, ensureDir]
    | some c => left; simp [ensureDir]

/-- Witness for C5: a whitespace-only transcript on an empty filesystem
yields the no-transcript failure. -/
theorem missingTranscript_fails_witness :
    (saveCopilotSession ⟨marchDate, "/ws", "linux", fun _ => none⟩
        ⟨some "  \n  ", none, none⟩ ⟨[], []⟩).1 = SaveResult.failure noTranscriptMsg :=
  (missingTranscript_fails ⟨marchDate, "/ws", "linux", fun _ => none⟩
      ⟨some "  \n  ", none, none⟩ ⟨[], []⟩ (by decide)).2.1 marchDate rfl

/-- C3 as stated is false: on an invocation with an empty transcript the
handler does fail, but only after it has already created the output date
directory and loaded or created the template. Here a concrete rejected
call leaves both the date directory and a freshly created default template
behind. -/
theorem validationOrder_counterexample :
    (saveCopilotSession ⟨marchDate, "/ws", "linux", fun _ => none⟩
        ⟨some "   ", none, none⟩ ⟨[], []⟩).1 = SaveResult.failure noTranscriptMsg ∧
    "/ws/copilot-session_log/05-03-2024" ∈
      (saveCopilotSession ⟨marchDate, "/ws", "linux", fun _ => none⟩
        ⟨some "   ", none, none⟩ ⟨[], []⟩).2.dirs ∧
    (saveCopilotSession ⟨marchDate, "/ws", "linux", fun _ => none⟩
        ⟨some "   ", none, none⟩ ⟨[], []⟩).2.files.lookup
        "/ws/copilot-session_log/_TEMPLATE.md" = some defaultTemplate := by
  refine ⟨by decide, by decide, by decide⟩

/-- C3 amended: when the transcript is absent or trims to empty (and the
`savedAt` gate passes), the handler responds with the no-transcript
failure, but template load/creation and output-directory creation happen
before transcript validation: the date directory is recorded as created
and the template file exists afterwards. -/
theorem validationOrder_amended (env : Env) (args : SaveCopilotSessionArgs) (fs : FS)
    (d : JsDate) (h : savedAtResult env args = some d)
    (ht : trimStr (args.transcriptMarkdown.getD "") = "") :
    (saveCopilotSession env args fs).1 = SaveResult.failure noTranscriptMsg ∧
    pathJoin (pathJoin (args.workspaceRoot.getD env.cwd) "copilot-session_log")
        (formatDateFolder d) ∈ (saveCopilotSession env args fs).2.dirs ∧
    ((saveCopilotSession env args fs).2.files.lookup
        (pathJoin (pathJoin (args.workspaceRoot.getD env.cwd) "copilot-session_log")
          "_TEMPLATE.md")).isSome = true := by
  rw [save_emptyTranscript_eq env args fs d h ht]
  refine ⟨rfl, ?_, ?_⟩
  · rw [loadOrCreateTemplate]
    cases hl : (ensureDir
        (pathJoin (pathJoin (args.workspaceRoot.getD env.cwd) "copilot-session_log")
          (formatDateFolder d)) fs).files.lookup
        (pathJoin (pathJoin (args.workspaceRoot.getD env.cwd) "copilot-session_log")
          "_TEMPLATE.md") with
    | none => simp [writeFile, ensureDir]
    | some c => simp [ensureDir]
  · rw [loadOrCreateTemplate]
    cases hl : (ensureDir
        (pathJoin (pathJoin (args.workspaceRoot.getD env.cwd) "copilot-session_log")
          (formatDateFolder d)) fs).files.lookup
        (pathJoin (pathJoin (args.workspaceRoot.getD env.cwd) "copilot-session_log")
          "_TEMPLATE.md") with
    | none => simp [writeFile]
    | some c => simp [hl]

/-- Witness for the amended C3 at a concrete rejected call. -/
theorem validationOrder_amended_witness :
    (saveCopilotSession ⟨marchDate, "/ws", "linux", fun _ => none⟩
        ⟨none, none, none⟩ ⟨[], []⟩).1 = SaveResult.failure noTranscriptMsg ∧
    pathJoin (pathJoin "/ws" "copilot-session_log") (formatDateFolder marchDate) ∈
      (saveCopilotSession ⟨marchDate, "/ws", "linux", fun _ => none⟩
        ⟨none, none, none⟩ ⟨[], []⟩).2.dirs ∧
    ((saveCopilotSession ⟨marchDate, "/ws", "linux", fun _ => none⟩
        ⟨none, none, none⟩ ⟨[], []⟩).2.files.lookup
        (pathJoin (pathJoin "/ws" "copilot-session_log") "_TEMPLATE.md")).isSome = true :=
  validationOrder_amended ⟨marchDate, "/ws", "linux", fun _ => none⟩
    ⟨none, none, none⟩ ⟨[], []⟩ marchDate rfl rfl

/-- C9: supplying `savedAt` as the empty string behaves exactly like
omitting it: the empty string is falsy, so the current local time is used
and the invalid-datetime failure is never produced for that value. -/
theorem emptySavedAt_treated_as_absent (env : Env) (t w : Option String) (fs : FS) :
    saveCopilotSession env ⟨t, some "", w⟩ fs = saveCopilotSession env ⟨t, none, w⟩ fs ∧
    savedAtResult env ⟨t, some "", w⟩ = some env.now ∧
    (saveCopilotSession env ⟨t, some "", w⟩ fs).1 ≠ SaveResult.failure invalidSavedAtMsg := by
  have h : savedAtResult env ⟨t, some "", w⟩ = some env.now := rfl
  refine ⟨rfl, h, ?_⟩
  simp only [saveCopilotSession, h]
  split
  · intro hEq
    rw [SaveResult.failure.injEq] at hEq
    exact absurd hEq (by decide)
  · simp

/-- Step lemma: searching for the flag past a prefix that does not contain
it shifts the accumulator by the length of the prefix. -/
theorem findIdx?_flag_append (pre l : List String) (i : Nat)
    (h : ∀ a ∈ pre, (a == "--workspaceRoot") = false) :
    List.findIdx? (fun a => a == "--workspaceRoot") (pre ++ l) i =
      List.findIdx? (fun a => a == "--workspaceRoot") l (i + pre.length) := by
  induction pre generalizing i with
  | nil => simp
  | cons a pre ih =>
    rw [List.cons_append, List.findIdx?_cons]
    rw [h a (List.mem_cons_self a pre)]
    simp only [Bool.false_eq_true, if_false]
    rw [ih (i + 1) (fun b hb => h b (List.mem_cons_of_mem a hb))]
    congr 1
    simp only [List.length_cons]
    omega

/-- C10: if the first occurrence of the `--workspaceRoot` flag in the
startup arguments (after the two leading entries of `argv`) is immediately
followed by an empty string, or is the final argument, no startup
workspace-root override is set, exactly as if the flag were absent. -/
theorem parseCliArgs_flag_without_value (a0 a1 : String) (pre post : List String)
    (h : "--workspaceRoot" ∉ pre) :
    parseCliArgs (a0 :: a1 :: (pre ++ "--workspaceRoot" :: "" :: post)) = none ∧
    parseCliArgs (a0 :: a1 :: (pre ++ ["--workspaceRoot"])) = none ∧
    parseCliArgs (a0 :: a1 :: pre) = none := by
  have hb : ∀ a ∈ pre, (a == "--workspaceRoot") = false := by
    intro a ha
    simp only [beq_eq_false_iff_ne, ne_eq]
    exact fun e => h (e ▸ ha)
  have hself : (("--workspaceRoot" : String) == "--workspaceRoot") = true := by decide
  refine ⟨?_, ?_, ?_⟩
  · simp only [parseCliArgs, List.drop_succ_cons, List.drop_zero]
    rw [findIdx?_flag_append pre _ 0 hb, List.findIdx?_cons, hself, if_pos rfl]
    simp only [Nat.zero_add]
    have hidx : (pre ++ "--workspaceRoot" :: "" :: post)[pre.length + 1]? = some "" := by
      rw [List.getElem?_append_right (by omega)]
      have e : pre.length + 1 - pre.length = 1 := by omega
      rw [e]
      simp
    simp only [hidx]
    rfl
  · simp only [parseCliArgs, List.drop_succ_cons, List.drop_zero]
    rw [findIdx?_flag_append pre _ 0 hb, List.findIdx?_cons, hself, if_pos rfl]
    simp only [Nat.zero_add]
    have hidx : (pre ++ ["--workspaceRoot"])[pre.length + 1]? = none := by
      rw [List.getElem?_append_right (by omega)]
      have e : pre.length + 1 - pre.length = 1 := by omega
      rw [e]
      simp
    simp only [hidx]
  · simp only [parseCliArgs, List.drop_succ_cons, List.drop_zero]
    have : List.findIdx? (fun a => a == "--workspaceRoot") pre 0 = none := by
      have := findIdx?_flag_append pre [] 0 hb
      simpa using this
    rw [this]

/-- Witness for C10 at the shortest concrete argument vectors. -/
theorem parseCliArgs_flag_without_value_witness :
    parseCliArgs ["node", "dist/index.js", "--workspaceRoot", ""] = none ∧
    parseCliArgs ["node", "dist/index.js", "--workspaceRoot"] = none :=
  ⟨(parseCliArgs_flag_without_value "node" "dist/index.js" [] [] (by decide)).1,
   (parseCliArgs_flag_without_value "node" "dist/index.js" [] [] (by decide)).2.1⟩

/-- C1: for every workspace root and valid millisecond timestamp, the date
folder has the zero-padded DD-MM-YYYY form, the time component has the
zero-padded HH-MM-SS-mmm form, the output path is the workspace root
followed by the log directory, the date folder and the session file name,
and the handler's success result carries exactly that path. The local
timestamp 2024-03-05T09:07:02.004 yields 05-03-2024 and 09-07-02-004. -/
theorem allocate_path_format :
    (∀ (ws : String) (d : JsDate), ValidDate d →
      formatDateFolder d =
        pad2 d.day ++ "-" ++ pad2 (d.month0 + 1) ++ "-" ++ natToString d.year ∧
      (pad2 d.day).length = 2 ∧ isDigits (pad2 d.day) = true ∧
      (pad2 (d.month0 + 1)).length = 2 ∧ isDigits (pad2 (d.month0 + 1)) = true ∧
      (natToString d.year).length = 4 ∧ isDigits (natToString d.year) = true ∧
      formatTimeDashMs d =
        pad2 d.hours ++ "-" ++ pad2 d.minutes ++ "-" ++ pad2 d.seconds ++ "-" ++ pad3 d.ms ∧
      (pad2 d.hours).length = 2 ∧ isDigits (pad2 d.hours) = true ∧
      (pad2 d.minutes).length = 2 ∧ isDigits (pad2 d.minutes) = true ∧
      (pad2 d.seconds).length = 2 ∧ isDigits (pad2 d.seconds) = true ∧
      (pad3 d.ms).length = 3 ∧ isDigits (pad3 d.ms) = true ∧
      sessionOutPath ws d =
        ws ++ "/" ++ "copilot-session_log" ++ "/" ++ formatDateFolder d ++ "/" ++
          ("session_" ++ formatTimeDashMs d ++ ".md") ∧
      (∀ (env : Env) (args : SaveCopilotSessionArgs) (fs : FS) (s : String),
        args.savedAt = some s → s ≠ "" → env.parseDate s = some d →
        args.workspaceRoot = some ws →
        trimStr (args.transcriptMarkdown.getD "") ≠ "" →
        (saveCopilotSession env args fs).1 =
          SaveResult.success (sessionOutPath ws d))) ∧
    formatDateFolder marchDate = "05-03-2024" ∧
    formatTimeDashMs marchDate = "09-07-02-004" ∧
    sessionOutPath "/tmp/ws" marchDate =
      "/tmp/ws/copilot-session_log/05-03-2024/session_09-07-02-004.md" := by
  refine ⟨?_, by decide, by decide, by decide⟩
  intro ws d hv
  obtain ⟨h1, h2, h3, h4, h5, h6, h7, h8, h9⟩ := hv
  refine ⟨rfl,
    (pad2_shape d.day (by omega)).1, (pad2_shape d.day (by omega)).2,
    (pad2_shape (d.month0 + 1) (by omega)).1, (pad2_shape (d.month0 + 1) (by omega)).2,
    natToString_year_length d.year h8 h9, natToString_isDigits d.year,
    rfl,
    (pad2_shape d.hours (by omega)).1, (pad2_shape d.hours (by omega)).2,
    (pad2_shape d.minutes (by omega)).1, (pad2_shape d.minutes (by omega)).2,
    (pad2_shape d.seconds (by omega)).1, (pad2_shape d.seconds (by omega)).2,
    (pad3_shape d.ms (by omega)).1, (pad3_shape d.ms (by omega)).2,
    rfl, ?_⟩
  intro env args fs s hs hsne hp hw htr
  have hgate : savedAtResult env args = some d := by
    have htru : jsTruthy args.savedAt = true := by
      rw [hs]
      simp [jsTruthy, hsne]
    rw [savedAtResult, if_pos htru, hs]
    exact hp
  simp [saveCopilotSession, hgate, htr, hw, sessionOutPath, pathJoin]

/-- Witness for C1 at the workspace root /ws and the March test date. -/
theorem allocate_path_format_witness :
    ValidDate marchDate ∧
    formatDateFolder marchDate =
      pad2 marchDate.day ++ "-" ++ pad2 (marchDate.month0 + 1) ++ "-" ++
        natToString marchDate.year ∧
    (pad2 marchDate.day).length = 2 :=
  ⟨by decide, (allocate_path_format.1 "/ws" marchDate (by decide)).1,
    (allocate_path_format.1 "/ws" marchDate (by decide)).2.1⟩
